import Mathlib

/-!
Verification of the grid/anomaly aggregation engine of a climate-visualization
repository.  The JavaScript sources are shallowly embedded: JS numbers that can
be NaN (or undefined) are modelled as `Option ℚ` with `none` playing the role of
NaN/undefined, `d3.mean` / `d3.sum` skip `none` exactly as d3 skips NaN and
undefined, and asynchronous file loading is modelled by passing the CSV
environment as a function from month keys to row lists.
-/

/-- A calendar month key, logically `(year, month 1..12)`; `monthIdx` is the
0-based index `parseInt(m.split("-")[1]) - 1` used by the source. -/
structure MonthKey where
  year : ℕ
  monthIdx : Fin 12
deriving DecidableEq, Repr

/-- Total order on month keys by time, `12*year + monthIdx`. -/
def MonthKey.time (mk : MonthKey) : ℕ := 12 * mk.year + mk.monthIdx

/-- One CSV row of the anomaly scripts: `lat`, `lon` and the Kelvin value
`tas_k` (`none` models an unparseable / NaN value). -/
structure Obs where
  lat : ℚ
  lon : ℚ
  tas_k : Option ℚ
deriving DecidableEq, Repr

/-- The region tags of the bar-chart script (second variant of the anomaly
file). -/
inductive Region
  | alaska | us | hawaii | kansas | florida | ny | california | washington
deriving DecidableEq, Repr

/-- Embedding of `if (lon < 0) lon += 360` — the longitude normalization done by
`filterByRegion` on each row (and, written literally as `-102+360` etc., on the
negative region bounds). -/
def normLon (lon : ℚ) : ℚ := if lon < 0 then lon + 360 else lon

/-- Embedding of `filterByRegion` of the anomaly script: normalize the row longitude and
test the hard-coded bounding box of the region. -/
def filterByRegion (region : Region) (d : Obs) : Bool :=
  let lat := d.lat
  let lon := normLon d.lon
  match region with
  | .alaska => decide (51 ≤ lat ∧ lat ≤ 72 ∧ 190 ≤ lon ∧ lon ≤ 235)
  | .us => decide (25 ≤ lat ∧ lat ≤ 49 ∧ 235 ≤ lon ∧ lon ≤ 294)
  | .hawaii => decide (18 ≤ lat ∧ lat ≤ 23 ∧ 199 ≤ lon ∧ lon ≤ 207)
  | .kansas => decide (36 ≤ lat ∧ lat ≤ 40 ∧ -102 + 360 ≤ lon ∧ lon ≤ -94 + 360)
  | .florida => decide (24 ≤ lat ∧ lat ≤ 31 ∧ -87 + 360 ≤ lon ∧ lon ≤ -80 + 360)
  | .ny => decide (40 ≤ lat ∧ lat ≤ 45 ∧ -80 + 360 ≤ lon ∧ lon ≤ -73 + 360)
  | .california => decide (32 ≤ lat ∧ lat ≤ 42 ∧ -125 + 360 ≤ lon ∧ lon ≤ -114 + 360)
  | .washington => decide (46 ≤ lat ∧ lat ≤ 49 ∧ -125 + 360 ≤ lon ∧ lon ≤ -116 + 360)

/-- Model of `d3.mean` over a list of possibly-NaN values: NaN/undefined entries are
skipped; the mean of the remaining values, or undefined (`none`) if none
remain. -/
def d3mean (l : List (Option ℚ)) : Option ℚ :=
  if l.filterMap id = [] then none
  else some ((l.filterMap id).sum / ((l.filterMap id).length : ℚ))

/-- Embedding of `d3.mean(regionData, d => +d.tas_k)` for one month: the regional mean of
the month's matching cells, skipping NaN. -/
def regionalMean (data : MonthKey → List Obs) (region : Region) (mk : MonthKey) : Option ℚ :=
  d3mean (((data mk).filter (filterByRegion region)).map Obs.tas_k)

/-- The bucket `monthlyTemps[c]` built by the loop of `computeMonthlyBaseline`:
for every month key of calendar month `c` whose regional row set is non-empty,
its regional `d3.mean` (possibly undefined when all its cells are NaN), in
month order. -/
def monthlyTempsBucket (data : MonthKey → List Obs) (months : List MonthKey)
    (region : Region) (c : Fin 12) : List (Option ℚ) :=
  months.filterMap (fun mk =>
    if mk.monthIdx = c then
      if (data mk).filter (filterByRegion region) = [] then none
      else some (d3mean (((data mk).filter (filterByRegion region)).map Obs.tas_k))
    else none)

/-- Embedding of `computeMonthlyBaseline` of the anomaly script: each calendar-month bucket
is mapped to `arr.length ? d3.mean(arr) : null`. -/
def computeMonthlyBaseline (data : MonthKey → List Obs) (months : List MonthKey)
    (region : Region) : Fin 12 → Option ℚ :=
  fun c =>
    if monthlyTempsBucket data months region c = [] then none
    else d3mean (monthlyTempsBucket data months region c)

/-- The per-year regional means the spec's baseline averages: for each month
key of calendar month `c`, the regional mean over its matching non-NaN cells,
kept only when that mean exists (at least one matching non-NaN cell). -/
def qualifyingMeans (data : MonthKey → List Obs) (months : List MonthKey)
    (region : Region) (c : Fin 12) : List ℚ :=
  months.filterMap (fun mk => if mk.monthIdx = c then regionalMean data region mk else none)

/-- The spec's two-level baseline, stated in its own words: first the per-year
regional mean over matching non-NaN cells, then the plain mean of those
per-year means; NaN when no year qualifies. -/
def specBaseline (data : MonthKey → List Obs) (months : List MonthKey)
    (region : Region) (c : Fin 12) : Option ℚ :=
  if qualifyingMeans data months region c = [] then none
  else some ((qualifyingMeans data months region c).sum
    / ((qualifyingMeans data months region c).length : ℚ))

/-- One point of the anomaly series: `{date, anomaly, tempK}` as pushed by
`loadData`. -/
structure Point where
  date : MonthKey
  anomaly : Option ℚ
  tempK : Option ℚ
deriving DecidableEq, Repr

/-- Embedding of `loadData` of the anomaly script, with the month list a parameter: skip a
month whose regional row set is empty, skip a month whose baseline entry is
null/undefined (`baseline[monthIdx] == null`), otherwise push
`{date, anomaly: avg - baseline, tempK: avg}` where `avg` may be undefined
(all-NaN month), making the pushed anomaly NaN. -/
def loadData (data : MonthKey → List Obs) (region : Region)
    (months : List MonthKey) : List Point :=
  months.filterMap (fun mk =>
    if (data mk).filter (filterByRegion region) = [] then none
    else
      match computeMonthlyBaseline data months region mk.monthIdx with
      | none => none
      | some b =>
        some ⟨mk, (regionalMean data region mk).map (fun a => a - b),
              regionalMean data region mk⟩)

/-- Whether `loadData` pushes a point for a month key: non-empty regional row
set and a non-null baseline entry for its calendar month. -/
def emitsPoint (data : MonthKey → List Obs) (region : Region)
    (months : List MonthKey) (mk : MonthKey) : Bool :=
  decide ((data mk).filter (filterByRegion region) ≠ []) &&
  (computeMonthlyBaseline data months region mk.monthIdx).isSome

/-- Embedding of `KtoC` of the heatmap script:
`Number.isFinite(v) ? (v > 150 ? v - 273.15 : v) : NaN`. -/
def KtoC (v : Option ℚ) : Option ℚ :=
  match v with
  | some x => some (if 150 < x then x - 273.15 else x)
  | none => none

/-- A dense grid as built by `rowsToGrid`: axis metadata plus the row-major
value array (`none` = NaN). -/
structure Grid where
  nLat : ℕ
  nLon : ℕ
  latsDesc : List ℚ
  lonsAsc : List ℚ
  values : List (Option ℚ)
deriving DecidableEq, Repr

/-- The cell-wise core of `loadDeltaSlice`: for each flat index `k` below the
current grid's length, `Number.isFinite(a) && Number.isFinite(b) ? a - b : NaN`
where reading past the previous array yields undefined (modelled, like NaN, by
`none`).  No shape compatibility check is performed. -/
def loadDeltaSlice (cur prev : Grid) : List (Option ℚ) :=
  (List.range cur.values.length).map (fun k =>
    let a := (cur.values.get? k).getD none
    let b := (prev.values.get? k).getD none
    match a, b with
    | some x, some y => some (x - y)
    | _, _ => none)

/-- A raw CSV row of the heatmap script's `loadSlice`: each temperature column
is `none` when absent from the row, and `some p` when present with parse result
`p` (`p = none` models an unparseable value, `+r.col = NaN`). -/
structure CsvRow where
  tas_k : Option (Option ℚ)
  tas : Option (Option ℚ)
  temp : Option (Option ℚ)
  temperature : Option (Option ℚ)
  value : Option (Option ℚ)
deriving DecidableEq, Repr

/-- The temperature selection of `loadSlice`:
`(r.tas_k !== undefined) ? +r.tas_k : (r.tas !== undefined) ? +r.tas :
(r.temp !== undefined) ? +r.temp : (r.temperature !== undefined) ?
+r.temperature : NaN`.  Note the chain never consults `r.value`. -/
def vK (r : CsvRow) : Option ℚ :=
  match r.tas_k with
  | some v => v
  | none =>
    match r.tas with
    | some v => v
    | none =>
      match r.temp with
      | some v => v
      | none =>
        match r.temperature with
        | some v => v
        | none => none

/-- The first column present among `tas_k`, `tas`, `temp`, `temperature`
(spec-side description of the fallback chain). -/
def firstTempColumn (r : CsvRow) : Option (Option ℚ) :=
  (r.tas_k.orElse fun _ => (r.tas.orElse fun _ => (r.temp.orElse fun _ => r.temperature)))

/-- C9: for every finite value, `KtoC` subtracts 273.15 exactly when the value
exceeds 150 and is the identity otherwise; every non-finite input maps to
NaN. -/
theorem KtoC_spec (v : ℚ) :
    (150 < v → KtoC (some v) = some (v - 273.15)) ∧
    (v ≤ 150 → KtoC (some v) = some v) ∧
    KtoC none = none := by
  refine ⟨fun h => ?_, fun h => ?_, rfl⟩
  · simp [KtoC, if_pos h]
  · simp [KtoC, if_neg (not_lt.mpr h)]

/-- Witness for `KtoC_spec` at the inputs 280 (Kelvin branch) and 100 (Celsius
branch). -/
theorem KtoC_spec_witness :
    (150 < (280 : ℚ) ∧ KtoC (some 280) = some (280 - 273.15)) ∧
    ((100 : ℚ) ≤ 150 ∧ KtoC (some 100) = some 100) := by
  exact ⟨⟨by norm_num, (KtoC_spec 280).1 (by norm_num)⟩,
         ⟨by norm_num, (KtoC_spec 100).2.1 (by norm_num)⟩⟩

/-- Current grid of the C3 failing input: 1×2, values `[1, 2]`. -/
def curMismatch : Grid := ⟨1, 2, [10], [20, 30], [some 1, some 2]⟩

/-- Previous grid of the C3 failing input: 1×1, axes differing from
`curMismatch`, value `[5]`. -/
def prevMismatch : Grid := ⟨1, 1, [10], [25], [some 5]⟩

/-- C3: `loadDeltaSlice` performs no shape check: on two grids whose axis sets
differ it silently returns a value array (flat-index differences, NaN past the
shorter array) instead of failing with a `ShapeMismatchError`. -/
theorem loadDeltaSlice_no_shape_check :
    (curMismatch.nLon ≠ prevMismatch.nLon ∧ curMismatch.lonsAsc ≠ prevMismatch.lonsAsc) ∧
    loadDeltaSlice curMismatch prevMismatch = [some (-4), none] := by
  constructor
  · exact ⟨by decide, by decide⟩
  · simp [loadDeltaSlice, curMismatch, prevMismatch, List.range_succ]
    norm_num

/-- A CSV row whose only temperature-like column is `value`, present and
parseable as 42. -/
def rowOnlyValue : CsvRow := ⟨none, none, none, none, some (some 42)⟩

/-- C8 counterexample: on a row whose only temperature column is a parseable
`value`, the code stores NaN — the accepted-name chain does not include
`value`, refuting the claim that NaN is stored only when none of the listed
columns yields a parseable number. -/
theorem vK_ignores_value_column_cex :
    rowOnlyValue.value = some (some 42) ∧ vK rowOnlyValue = none := by
  exact ⟨rfl, rfl⟩

/-- C8 (amended): the stored temperature is the parse result of the first
column present among `tas_k`, `tas`, `temp`, `temperature` (NaN when none is
present or the first present one is unparseable), and the `value` column is
never consulted. -/
theorem vK_first_present_column (r : CsvRow) :
    vK r = (firstTempColumn r).getD none ∧
    (∀ w, vK { r with value := w } = vK r) := by
  constructor
  · cases h1 : r.tas_k <;> cases h2 : r.tas <;> cases h3 : r.temp <;>
      cases h4 : r.temperature <;>
      simp [vK, firstTempColumn, h1, h2, h3, h4, Option.orElse]
  · intro w
    cases h1 : r.tas_k <;> cases h2 : r.tas <;> cases h3 : r.temp <;>
      cases h4 : r.temperature <;> simp [vK, h1, h2, h3, h4]

/-- C2: the baseline of the anomaly script is the spec's two-level average —
per-year regional means over matching non-NaN cells, then the mean of those
per-year means — with NaN (null/undefined) exactly when no year of that
calendar month has a matching non-NaN cell. -/
theorem computeMonthlyBaseline_eq_specBaseline
    (data : MonthKey → List Obs) (months : List MonthKey) (region : Region) (c : Fin 12) :
    computeMonthlyBaseline data months region c = specBaseline data months region c := by
  have key : (monthlyTempsBucket data months region c).filterMap id
      = qualifyingMeans data months region c := by
    unfold monthlyTempsBucket qualifyingMeans
    rw [List.filterMap_filterMap]
    refine congrArg (fun f => List.filterMap f months) (funext fun mk => ?_)
    by_cases h : mk.monthIdx = c
    · by_cases hrd : (data mk).filter (filterByRegion region) = []
      · simp [h, hrd, regionalMean, d3mean]
      · simp [h, hrd, regionalMean]
    · simp [h]
  simp only [computeMonthlyBaseline, specBaseline, d3mean]
  rw [key]
  by_cases hq : qualifyingMeans data months region c = []
  · by_cases hb : monthlyTempsBucket data months region c = [] <;> simp [hb, hq]
  · have hb : monthlyTempsBucket data months region c ≠ [] := by
      intro h0
      apply hq
      rw [← key, h0]
      rfl
    simp [hb, hq]

/-- Filtering as a `filterMap` that keeps an element when a Boolean predicate
holds. -/
theorem filterMap_ite_some_eq_filter {α : Type} (p : α → Bool) (l : List α) :
    l.filterMap (fun a => if p a then some a else none) = l.filter p := by
  induction l with
  | nil => rfl
  | cons a l ih =>
    by_cases h : p a <;> simp [List.filterMap_cons, List.filter_cons, h, ih]

/-- C1 (amended): `loadData` emits exactly one point per month key whose
regional row set is non-empty and whose baseline entry is non-null (in
particular a non-empty all-NaN month still emits a point); each emitted point
carries `tempK` equal to the regional NaN-skipping mean (NaN when all cells are
NaN) and `anomaly = tempK - baseline[calendarMonth]` (NaN when `tempK` is NaN);
and a strictly ascending month list yields a strictly ascending series. -/
theorem loadData_emits_characterization
    (data : MonthKey → List Obs) (region : Region) (months : List MonthKey) :
    ((loadData data region months).map Point.date
        = months.filter (emitsPoint data region months)) ∧
    (∀ p ∈ loadData data region months,
        ∃ b, computeMonthlyBaseline data months region p.date.monthIdx = some b ∧
          p.tempK = regionalMean data region p.date ∧
          p.anomaly = (regionalMean data region p.date).map (fun a => a - b)) ∧
    (months.Pairwise (fun a b => a.time < b.time) →
        (loadData data region months).Pairwise
          (fun p q => p.date.time < q.date.time)) := by
  have part1 : (loadData data region months).map Point.date
      = months.filter (emitsPoint data region months) := by
    simp only [loadData, List.map_filterMap]
    rw [← filterMap_ite_some_eq_filter (emitsPoint data region months) months]
    refine congrArg (fun f => List.filterMap f months) (funext fun mk => ?_)
    by_cases hrd : (data mk).filter (filterByRegion region) = []
    · simp [hrd, emitsPoint]
    · cases hb : computeMonthlyBaseline data months region mk.monthIdx with
      | none => simp [hrd, hb, emitsPoint]
      | some b => simp [hrd, hb, emitsPoint]
  refine ⟨part1, ?_, ?_⟩
  · intro p hp
    obtain ⟨mk, hmk, hf⟩ := List.mem_filterMap.mp hp
    by_cases hrd : (data mk).filter (filterByRegion region) = []
    · rw [if_pos hrd] at hf
      simp at hf
    · rw [if_neg hrd] at hf
      cases hb : computeMonthlyBaseline data months region mk.monthIdx with
      | none =>
        rw [hb] at hf
        simp at hf
      | some b =>
        rw [hb] at hf
        have hpeq : (⟨mk, (regionalMean data region mk).map (fun a => a - b),
            regionalMean data region mk⟩ : Point) = p := by
          exact Option.some.inj hf
        subst hpeq
        exact ⟨b, hb, rfl, rfl⟩
  · intro hsort
    have h2 : List.Pairwise (fun a b => MonthKey.time a < MonthKey.time b)
        ((loadData data region months).map Point.date) := by
      rw [part1]
      exact hsort.filter _
    exact (@List.pairwise_map Point MonthKey Point.date
      (fun a b => a.time < b.time) (loadData data region months)).mp h2

/-- The two-month inputs used to exercise `loadData`: January 1987 and January
1988. -/
def monthsC1 : List MonthKey := [⟨1987, 0⟩, ⟨1988, 0⟩]

/-- A CSV environment with a single Alaska cell per month: value 280 K in
January 1987, NaN (unparseable) in January 1988. -/
def envC1 : MonthKey → List Obs := fun mk =>
  if mk.year = 1987 then [⟨60, 200, some 280⟩]
  else if mk.year = 1988 then [⟨60, 200, none⟩]
  else []

/-- The 1987 row survives the Alaska filter. -/
theorem envC1_filter87 :
    (envC1 ⟨1987, 0⟩).filter (filterByRegion Region.alaska) = [⟨60, 200, some 280⟩] := by
  decide

/-- The 1988 row survives the Alaska filter. -/
theorem envC1_filter88 :
    (envC1 ⟨1988, 0⟩).filter (filterByRegion Region.alaska) = [⟨60, 200, none⟩] := by
  decide

/-- Evaluation of `d3.mean` at a single 280 K cell. -/
theorem d3mean_single280 : d3mean [some 280] = some 280 := by
  norm_num [d3mean, List.filterMap_cons, List.filterMap_nil, id_eq]

/-- Evaluation of `d3.mean` at a single NaN cell: undefined. -/
theorem d3mean_singleNaN : d3mean [none] = none := by
  simp [d3mean]

/-- Regional mean of the 1987 month. -/
theorem regionalMean_envC1_87 :
    regionalMean envC1 Region.alaska ⟨1987, 0⟩ = some 280 := by
  simp [regionalMean, envC1_filter87, d3mean_single280]

/-- Regional mean of the all-NaN 1988 month is undefined. -/
theorem regionalMean_envC1_88 :
    regionalMean envC1 Region.alaska ⟨1988, 0⟩ = none := by
  simp [regionalMean, envC1_filter88, d3mean_singleNaN]

/-- The January bucket of the two-month environment: the defined 1987 mean and
the undefined (pushed) 1988 mean. -/
theorem bucket_envC1 :
    monthlyTempsBucket envC1 [⟨1987, 0⟩, ⟨1988, 0⟩] Region.alaska 0 = [some 280, none] := by
  simp only [monthlyTempsBucket, List.filterMap_cons, List.filterMap_nil]
  rw [envC1_filter87, envC1_filter88]
  norm_num [d3mean_single280, d3mean_singleNaN]

/-- The January baseline of the two-month environment: 280 K (the undefined
1988 entry is skipped by `d3.mean`). -/
theorem baseline_envC1 :
    computeMonthlyBaseline envC1 [⟨1987, 0⟩, ⟨1988, 0⟩] Region.alaska 0 = some 280 := by
  simp only [computeMonthlyBaseline, bucket_envC1]
  rw [if_neg (List.cons_ne_nil _ _)]
  norm_num [d3mean, List.filterMap_cons, List.filterMap_nil, id_eq]

/-- Evaluation of `loadData` on the two-month environment: the all-NaN January
1988 still yields a point, with NaN mean and NaN anomaly. -/
theorem loadData_envC1_eval :
    loadData envC1 Region.alaska monthsC1
      = [⟨⟨1987, 0⟩, some 0, some 280⟩, ⟨⟨1988, 0⟩, none, none⟩] := by
  simp only [loadData, monthsC1, List.filterMap_cons, List.filterMap_nil]
  rw [envC1_filter87, envC1_filter88]
  norm_num [baseline_envC1, regionalMean_envC1_87, regionalMean_envC1_88]

/-- C1 counterexample: January 1988 has a non-empty regional row set whose
cells are all NaN, yet `loadData` emits a point for it — refuting the claim
that an all-NaN month contributes no point. -/
theorem loadData_allNaN_month_still_emits :
    ((envC1 ⟨1988, 0⟩).filter (filterByRegion Region.alaska) ≠ [] ∧
      ((envC1 ⟨1988, 0⟩).filter (filterByRegion Region.alaska)).all
        (fun o => o.tas_k.isNone) = true) ∧
    (loadData envC1 Region.alaska monthsC1).map Point.date
      = [⟨1987, 0⟩, ⟨1988, 0⟩] := by
  refine ⟨⟨?_, ?_⟩, ?_⟩
  · decide
  · decide
  · rw [loadData_envC1_eval]
    rfl

/-- Witness for `loadData_emits_characterization` on the concrete two-month
environment, discharging the membership and sortedness hypotheses. -/
theorem loadData_emits_characterization_witness :
    (∃ b, computeMonthlyBaseline envC1 monthsC1 Region.alaska
          ((⟨⟨1987, 0⟩, some 0, some 280⟩ : Point).date.monthIdx) = some b ∧
        (⟨⟨1987, 0⟩, some 0, some 280⟩ : Point).tempK
          = regionalMean envC1 Region.alaska (⟨⟨1987, 0⟩, some 0, some 280⟩ : Point).date ∧
        (⟨⟨1987, 0⟩, some 0, some 280⟩ : Point).anomaly
          = (regionalMean envC1 Region.alaska
              (⟨⟨1987, 0⟩, some 0, some 280⟩ : Point).date).map (fun a => a - b)) ∧
    (loadData envC1 Region.alaska monthsC1).Pairwise
      (fun p q => p.date.time < q.date.time) :=
  ⟨(loadData_emits_characterization envC1 Region.alaska monthsC1).2.1
      ⟨⟨1987, 0⟩, some 0, some 280⟩ (by rw [loadData_envC1_eval]; simp),
   (loadData_emits_characterization envC1 Region.alaska monthsC1).2.2 (by decide)⟩

/-- One input point of `computeRegressionLine`: the epoch time
`d.date.getTime()` and the anomaly. -/
structure RPoint where
  t : ℤ
  anomaly : ℚ
deriving DecidableEq, Repr

/-- Model of `d3.mean` of an all-numeric list (as applied to the regression inputs,
which contain no NaN). -/
def meanQ (l : List ℚ) : ℚ := l.sum / (l.length : ℚ)

/-- The local `num` of `computeRegressionLine`:
`d3.sum(xVals.map((xi, i) => (xi - xMean) * (yVals[i] - yMean)))`. -/
def regNum (data : List RPoint) : ℚ :=
  (((data.map fun d => ((d.t : ℚ))).zip (data.map RPoint.anomaly)).map
    (fun p => (p.1 - meanQ (data.map fun d => ((d.t : ℚ))))
      * (p.2 - meanQ (data.map RPoint.anomaly)))).sum

/-- The local `den` of `computeRegressionLine`:
`d3.sum(xVals.map(xi => (xi - xMean) ** 2))`. -/
def regDen (data : List RPoint) : ℚ :=
  ((data.map fun d => ((d.t : ℚ))).map
    (fun xi => (xi - meanQ (data.map fun d => ((d.t : ℚ)))) ^ 2)).sum

/-- Embedding of `computeRegressionLine` of the anomaly script: null when fewer than two
points or when the denominator is zero; otherwise the two endpoints of the
fitted line evaluated at the requested time range. -/
def computeRegressionLine (data : List RPoint) (xa xb : ℤ) : Option (RPoint × RPoint) :=
  if data.length < 2 then none
  else if regDen data = 0 then none
  else
    some (⟨xa, (regNum data / regDen data) * (xa : ℚ)
            + (meanQ (data.map RPoint.anomaly)
              - (regNum data / regDen data) * meanQ (data.map fun d => ((d.t : ℚ))))⟩,
          ⟨xb, (regNum data / regDen data) * (xb : ℚ)
            + (meanQ (data.map RPoint.anomaly)
              - (regNum data / regDen data) * meanQ (data.map fun d => ((d.t : ℚ))))⟩)

/-- The spec's time-variance denominator `Sum((x - xbar)^2)`. -/
def sxx (data : List RPoint) : ℚ :=
  (data.map (fun d => ((d.t : ℚ) - meanQ (data.map fun e => ((e.t : ℚ)))) ^ 2)).sum

/-- The spec's cross term `Sum((x - xbar)(y - ybar))`. -/
def sxy (data : List RPoint) : ℚ :=
  (data.map (fun d => ((d.t : ℚ) - meanQ (data.map fun e => ((e.t : ℚ))))
    * (d.anomaly - meanQ (data.map RPoint.anomaly)))).sum

/-- The spec's slope `Sum((x - xbar)(y - ybar)) / Sum((x - xbar)^2)`. -/
def slopeSpec (data : List RPoint) : ℚ := sxy data / sxx data

/-- The spec's intercept `ybar - slope * xbar`. -/
def interceptSpec (data : List RPoint) : ℚ :=
  meanQ (data.map RPoint.anomaly) - slopeSpec data * meanQ (data.map fun d => ((d.t : ℚ)))

/-- C4: `computeRegressionLine` returns the null failure result exactly when
the series has fewer than two points or the time-variance denominator
vanishes; otherwise it returns the line with the spec's slope and intercept
evaluated at the requested endpoints. -/
theorem computeRegressionLine_spec (data : List RPoint) (xa xb : ℤ) :
    (computeRegressionLine data xa xb = none ↔ data.length < 2 ∨ sxx data = 0) ∧
    (2 ≤ data.length → sxx data ≠ 0 →
      computeRegressionLine data xa xb
        = some (⟨xa, slopeSpec data * (xa : ℚ) + interceptSpec data⟩,
                ⟨xb, slopeSpec data * (xb : ℚ) + interceptSpec data⟩)) := by
  have hden : regDen data = sxx data := by
    unfold regDen sxx
    rw [List.map_map]
    rfl
  have hnum : regNum data = sxy data := by
    unfold regNum sxy
    rw [List.zip_map' (fun d : RPoint => ((d.t : ℚ))) RPoint.anomaly data, List.map_map]
    rfl
  constructor
  · constructor
    · intro h
      by_cases h2 : data.length < 2
      · exact Or.inl h2
      · refine Or.inr ?_
        rw [computeRegressionLine, if_neg h2] at h
        by_cases hd : regDen data = 0
        · rw [← hden]
          exact hd
        · rw [if_neg hd] at h
          exact Option.noConfusion h
    · intro h
      rw [computeRegressionLine]
      by_cases h2 : data.length < 2
      · rw [if_pos h2]
      · rcases h with h | h
        · exact absurd h h2
        · rw [if_neg h2, if_pos (by rw [hden]; exact h)]
  · intro hlen hsxx
    rw [computeRegressionLine, if_neg (not_lt.mpr hlen),
      if_neg (fun h0 => hsxx (by rw [← hden]; exact h0))]
    rw [hnum, hden]
    rfl

/-- Witness for `computeRegressionLine_spec` on the two points (0, 0) and
(10, 10): the fitted line passes through both and reaches 20 at time 20. -/
theorem computeRegressionLine_spec_witness :
    2 ≤ ([⟨0, 0⟩, ⟨10, 10⟩] : List RPoint).length ∧
    sxx [⟨0, 0⟩, ⟨10, 10⟩] ≠ 0 ∧
    computeRegressionLine [⟨0, 0⟩, ⟨10, 10⟩] 0 20 = some (⟨0, 0⟩, ⟨20, 20⟩) := by
  have hs : sxx [(⟨0, 0⟩ : RPoint), ⟨10, 10⟩] ≠ 0 := by
    norm_num [sxx, meanQ]
  refine ⟨by norm_num, hs, ?_⟩
  rw [(computeRegressionLine_spec [⟨0, 0⟩, ⟨10, 10⟩] 0 20).2 (by norm_num) hs]
  norm_num [slopeSpec, interceptSpec, sxy, sxx, meanQ]

/-- Generic region bounds, longitudes given in the signed [-180,180]
convention. -/
structure RegionBounds where
  latMin : ℚ
  latMax : ℚ
  lonMin : ℚ
  lonMax : ℚ
deriving DecidableEq, Repr

/-- Membership test in the code's style (as `filterByRegion` does): the row
longitude is normalized by `if (lon < 0) lon += 360`, and each negative bound
is shifted by 360 (the source writes the converted bounds literally, e.g.
`-102+360`). -/
def inRegionNorm (b : RegionBounds) (d : Obs) : Bool :=
  decide (b.latMin ≤ d.lat ∧ d.lat ≤ b.latMax ∧
    normLon b.lonMin ≤ normLon d.lon ∧ normLon d.lon ≤ normLon b.lonMax)

/-- Conversion of a [0,360]-convention longitude to the signed (-180,180]
convention. -/
def to180 (x : ℚ) : ℚ := if 180 < x then x - 360 else x

/-- Membership test after first converting the grid longitude to the signed
convention and comparing with the unconverted bounds. -/
def inRegionConv (b : RegionBounds) (d : Obs) : Bool :=
  decide (b.latMin ≤ d.lat ∧ d.lat ≤ b.latMax ∧
    b.lonMin ≤ to180 d.lon ∧ to180 d.lon ≤ b.lonMax)

/-- C5 (amended): on a [0,360)-longitude grid with bounds in [-180,180], the
code's normalize-and-compare filter selects the same cells as converting the
grid to the signed convention and filtering with the unconverted bounds,
provided both longitude bounds lie on the same side of the zero meridian (both
nonnegative, or both negative with `lonMin > -180`). -/
theorem filter_normalized_eq_filter_converted
    (b : RegionBounds) (rows : List Obs)
    (hb : -180 ≤ b.lonMin ∧ b.lonMin ≤ b.lonMax ∧ b.lonMax ≤ 180)
    (hside : 0 ≤ b.lonMin ∨ (b.lonMax < 0 ∧ -180 < b.lonMin))
    (hrows : ∀ r ∈ rows, 0 ≤ r.lon ∧ r.lon < 360) :
    rows.filter (inRegionNorm b) = rows.filter (inRegionConv b) := by
  refine List.filter_congr (fun r hr => ?_)
  obtain ⟨h0, h360⟩ := hrows r hr
  unfold inRegionNorm inRegionConv
  rw [decide_eq_decide]
  have hnlx : normLon r.lon = r.lon := by
    rw [normLon, if_neg (not_lt.mpr h0)]
  rcases hside with hpos | hneg
  · have hposM : (0 : ℚ) ≤ b.lonMax := le_trans hpos hb.2.1
    have hnm : normLon b.lonMin = b.lonMin := by
      rw [normLon, if_neg (not_lt.mpr hpos)]
    have hnM : normLon b.lonMax = b.lonMax := by
      rw [normLon, if_neg (not_lt.mpr hposM)]
    rw [hnlx, hnm, hnM]
    constructor
    · rintro ⟨ha, hb2, hc, hd⟩
      have ht : to180 r.lon = r.lon := by
        rw [to180, if_neg (not_lt.mpr (le_trans hd hb.2.2))]
      rw [ht]
      exact ⟨ha, hb2, hc, hd⟩
    · rintro ⟨ha, hb2, hc, hd⟩
      by_cases hx : 180 < r.lon
      · rw [to180, if_pos hx] at hc hd
        exfalso
        linarith
      · rw [to180, if_neg hx] at hc hd
        exact ⟨ha, hb2, hc, hd⟩
  · obtain ⟨hMneg, hmgt⟩ := hneg
    have hmneg : b.lonMin < 0 := lt_of_le_of_lt hb.2.1 hMneg
    have hnm : normLon b.lonMin = b.lonMin + 360 := by
      rw [normLon, if_pos hmneg]
    have hnM : normLon b.lonMax = b.lonMax + 360 := by
      rw [normLon, if_pos hMneg]
    rw [hnlx, hnm, hnM]
    constructor
    · rintro ⟨ha, hb2, hc, hd⟩
      have hx : 180 < r.lon := by linarith
      rw [to180, if_pos hx]
      exact ⟨ha, hb2, by linarith, by linarith⟩
    · rintro ⟨ha, hb2, hc, hd⟩
      by_cases hx : 180 < r.lon
      · rw [to180, if_pos hx] at hc hd
        exact ⟨ha, hb2, by linarith, by linarith⟩
      · rw [to180, if_neg hx] at hc hd
        exfalso
        linarith

/-- Bounds that straddle the zero meridian, in the signed convention. -/
def straddleBounds : RegionBounds := ⟨0, 50, -10, 10⟩

/-- A one-cell [0,360)-longitude grid at latitude 25, longitude 5. -/
def rowsStraddle : List Obs := [⟨25, 5, some 280⟩]

/-- C5 counterexample: with bounds `[-10, 10]` (straddling the zero meridian)
and a grid cell at longitude 5, the code-style normalized comparison selects
nothing while the convert-then-filter method selects the cell — the two
methods disagree, refuting the unconditional equivalence claim. -/
theorem filter_normalized_straddling_differs :
    (-180 ≤ straddleBounds.lonMin ∧ straddleBounds.lonMin ≤ straddleBounds.lonMax ∧
      straddleBounds.lonMax ≤ 180) ∧
    rowsStraddle.all (fun r => decide (0 ≤ r.lon ∧ r.lon < 360)) = true ∧
    rowsStraddle.filter (inRegionNorm straddleBounds) = [] ∧
    rowsStraddle.filter (inRegionConv straddleBounds) = rowsStraddle := by
  refine ⟨by norm_num [straddleBounds], by norm_num [rowsStraddle], ?_, ?_⟩
  · norm_num [rowsStraddle, straddleBounds, inRegionNorm, normLon, List.filter_cons]
  · norm_num [rowsStraddle, straddleBounds, inRegionConv, to180, List.filter_cons]

/-- Nonnegative-side bounds used by the C5 witness. -/
def eastBounds : RegionBounds := ⟨0, 50, 10, 20⟩

/-- A two-cell grid: one cell inside the witness bounds, one far east. -/
def rowsEast : List Obs := [⟨25, 15, some 280⟩, ⟨25, 350, some 281⟩]

/-- Witness for `filter_normalized_eq_filter_converted` on concrete
nonnegative bounds and a concrete [0,360) grid. -/
theorem filter_normalized_eq_filter_converted_witness :
    rowsEast.filter (inRegionNorm eastBounds) = rowsEast.filter (inRegionConv eastBounds) :=
  filter_normalized_eq_filter_converted eastBounds rowsEast
    (by norm_num [eastBounds]) (Or.inl (by norm_num [eastBounds]))
    (by decide)

/-- One parsed CSV row of the heatmap script as consumed by `rowsToGrid`:
coordinates and the (possibly NaN) cell value. -/
structure MRow where
  lat : ℚ
  lon : ℚ
  val : Option ℚ
deriving DecidableEq, Repr

/-- Model of `Array.from(new Set(xs))`: first-occurrence deduplication in input
order. -/
def distinctList : List ℚ → List ℚ
  | [] => []
  | a :: l => a :: distinctList (l.filter fun x => decide (x ≠ a))
termination_by l => l.length
decreasing_by
  simp only [List.length_cons]
  exact Nat.lt_succ_of_le (List.length_filter_le _ _)

/-- Deduplication preserves membership. -/
theorem mem_distinctList (a : ℚ) : ∀ l : List ℚ, (a ∈ distinctList l ↔ a ∈ l) := by
  intro l
  induction l using distinctList.induct with
  | case1 => simp [distinctList]
  | case2 b l ih =>
    rw [distinctList]
    simp only [List.mem_cons]
    rw [ih]
    simp only [List.mem_filter, decide_eq_true_eq]
    constructor
    · rintro (h | ⟨hl, _⟩)
      · exact Or.inl h
      · exact Or.inr hl
    · rintro (h | hl)
      · exact Or.inl h
      · by_cases hab : a = b
        · exact Or.inl hab
        · exact Or.inr ⟨hl, hab⟩

/-- Deduplication yields a duplicate-free list. -/
theorem nodup_distinctList : ∀ l : List ℚ, (distinctList l).Nodup := by
  intro l
  induction l using distinctList.induct with
  | case1 => simp [distinctList]
  | case2 b l ih =>
    rw [distinctList]
    rw [List.nodup_cons]
    refine ⟨?_, ih⟩
    intro hmem
    rw [mem_distinctList, List.mem_filter, decide_eq_true_eq] at hmem
    exact hmem.2 rfl

instance : DecidableRel (fun a b : ℚ => b ≤ a) :=
  fun a b => inferInstanceAs (Decidable (b ≤ a))

instance : IsTotal ℚ (fun a b : ℚ => b ≤ a) :=
  ⟨fun a b => le_total b a⟩

instance : IsTrans ℚ (fun a b : ℚ => b ≤ a) :=
  ⟨fun _ _ _ h1 h2 => le_trans h2 h1⟩

instance : IsAntisymm ℚ (fun a b : ℚ => b ≤ a) :=
  ⟨fun _ _ h1 h2 => le_antisymm h2 h1⟩

/-- The latitude axis of `rowsToGrid`:
`Array.from(new Set(rows.map(r => +r.lat))).sort((a, b) => b - a)` — distinct
latitudes sorted descending (north to south). -/
def latsDescAxis (rows : List MRow) : List ℚ :=
  List.insertionSort (fun a b => b ≤ a) (distinctList (rows.map MRow.lat))

/-- The longitude axis of `rowsToGrid`:
`Array.from(new Set(rows.map(r => +r.lon))).sort((a, b) => a - b)` — distinct
longitudes sorted ascending (west to east). -/
def lonsAscAxis (rows : List MRow) : List ℚ :=
  List.insertionSort (fun a b => a ≤ b) (distinctList (rows.map MRow.lon))

/-- Sorting the deduplications of two lists with the same members gives the
same list. -/
theorem sortedDistinct_eq_of_mem_iff {r : ℚ → ℚ → Prop} [DecidableRel r]
    [IsTotal ℚ r] [IsTrans ℚ r] [IsAntisymm ℚ r] {L1 L2 : List ℚ}
    (h : ∀ a, a ∈ L1 ↔ a ∈ L2) :
    List.insertionSort r (distinctList L1) = List.insertionSort r (distinctList L2) := by
  apply List.eq_of_perm_of_sorted ?_ (List.sorted_insertionSort r _)
    (List.sorted_insertionSort r _)
  refine ((List.perm_insertionSort r _).trans ?_).trans (List.perm_insertionSort r _).symm
  refine (List.perm_ext_iff_of_nodup (nodup_distinctList _) (nodup_distinctList _)).mpr ?_
  intro a
  rw [mem_distinctList, mem_distinctList]
  exact h a

/-- The sorted deduplication has as many entries as there are distinct values
in the input. -/
theorem length_sortedDistinct (r : ℚ → ℚ → Prop) [DecidableRel r] (L : List ℚ) :
    (List.insertionSort r (distinctList L)).length = L.toFinset.card := by
  rw [(List.perm_insertionSort r _).length_eq]
  rw [← List.toFinset_card_of_nodup (nodup_distinctList L)]
  congr 1
  ext a
  simp [mem_distinctList]

/-- C6: both axes of `rowsToGrid` are duplicate-free, deterministically sorted
(latitude descending, longitude ascending), have as many entries as there are
distinct input coordinates, and are invariant under any permutation of the CSV
rows. -/
theorem rowsToGrid_axes_spec (rows : List MRow) :
    ((latsDescAxis rows).Nodup ∧ (latsDescAxis rows).Sorted (fun a b => b ≤ a) ∧
      (latsDescAxis rows).length = (rows.map MRow.lat).toFinset.card) ∧
    ((lonsAscAxis rows).Nodup ∧ (lonsAscAxis rows).Sorted (fun a b => a ≤ b) ∧
      (lonsAscAxis rows).length = (rows.map MRow.lon).toFinset.card) ∧
    (∀ rows2, rows.Perm rows2 →
      latsDescAxis rows = latsDescAxis rows2 ∧ lonsAscAxis rows = lonsAscAxis rows2) := by
  refine ⟨⟨?_, ?_, ?_⟩, ⟨?_, ?_, ?_⟩, ?_⟩
  · exact ((List.perm_insertionSort _ _).symm).nodup (nodup_distinctList _)
  · exact List.sorted_insertionSort _ _
  · exact length_sortedDistinct _ _
  · exact ((List.perm_insertionSort _ _).symm).nodup (nodup_distinctList _)
  · exact List.sorted_insertionSort _ _
  · exact length_sortedDistinct _ _
  · intro rows2 hperm
    constructor
    · exact sortedDistinct_eq_of_mem_iff (fun a => (hperm.map MRow.lat).mem_iff)
    · exact sortedDistinct_eq_of_mem_iff (fun a => (hperm.map MRow.lon).mem_iff)

/-- Rows used by the C6 witness. -/
def rowsPermA : List MRow := [⟨10, 40, some 1⟩, ⟨20, 30, some 2⟩, ⟨10, 30, none⟩]

/-- The same rows in another order. -/
def rowsPermB : List MRow := [⟨10, 30, none⟩, ⟨10, 40, some 1⟩, ⟨20, 30, some 2⟩]

/-- Witness for `rowsToGrid_axes_spec`: the axes agree across a concrete row
permutation. -/
theorem rowsToGrid_axes_spec_witness :
    (latsDescAxis rowsPermA).Sorted (fun a b => b ≤ a) ∧
    latsDescAxis rowsPermA = latsDescAxis rowsPermB ∧
    lonsAscAxis rowsPermA = lonsAscAxis rowsPermB :=
  ⟨(rowsToGrid_axes_spec rowsPermA).1.2.1,
   ((rowsToGrid_axes_spec rowsPermA).2.2 rowsPermB (by decide)).1,
   ((rowsToGrid_axes_spec rowsPermA).2.2 rowsPermB (by decide)).2⟩

/-- The `(lat, lon)` pair a row resolves to in the index maps of
`rowsToGrid`. -/
def cellKey (r : MRow) : ℚ × ℚ := (r.lat, r.lon)

/-- The dense value array of `rowsToGrid`, observed at one cell: starting from
`values.fill(NaN)`, each row writes its (possibly NaN) value at its resolved
index, later rows overwriting earlier ones. -/
def cellValue (rows : List MRow) (p : ℚ × ℚ) : Option ℚ :=
  rows.foldl (fun acc r => if cellKey r = p then r.val else acc) none

/-- The set of cells written by at least one input row. -/
def writtenCells (rows : List MRow) : Finset (ℚ × ℚ) :=
  (rows.map cellKey).toFinset

/-- The set of cells holding a non-NaN value after `rowsToGrid`. -/
def nonNaNCells (rows : List MRow) : Finset (ℚ × ℚ) :=
  (writtenCells rows).filter (fun p => (cellValue rows p).isSome)

/-- Appending one row only rewrites that row's own cell. -/
theorem cellValue_append (rows : List MRow) (r : MRow) (p : ℚ × ℚ) :
    cellValue (rows ++ [r]) p = if cellKey r = p then r.val else cellValue rows p := by
  unfold cellValue
  rw [List.foldl_append]
  rfl

/-- A fold that never hits the cell leaves the accumulator unchanged. -/
theorem foldl_cell_untouched (p : ℚ × ℚ) :
    ∀ (l : List MRow) (acc : Option ℚ), (∀ r ∈ l, cellKey r ≠ p) →
      l.foldl (fun acc r => if cellKey r = p then r.val else acc) acc = acc := by
  intro l
  induction l with
  | nil => intro acc _; rfl
  | cons x l ih =>
    intro acc hx
    rw [List.foldl_cons, if_neg (hx x (List.mem_cons_self x l))]
    exact ih acc (fun r hr => hx r (List.mem_cons_of_mem x hr))

/-- The number of non-NaN cells is at most the number of rows with a valid
value. -/
theorem nonNaNCells_card_le (rows : List MRow) :
    (nonNaNCells rows).card ≤ (rows.filter (fun r => r.val.isSome)).length := by
  induction rows using List.reverseRecOn with
  | nil => simp [nonNaNCells, writtenCells]
  | append_singleton rows r ih =>
    have hsub : nonNaNCells (rows ++ [r]) ⊆
        (nonNaNCells rows) ∪ (if r.val.isSome then {cellKey r} else ∅) := by
      intro p hp
      rw [nonNaNCells, Finset.mem_filter] at hp
      obtain ⟨hw, hv⟩ := hp
      rw [cellValue_append] at hv
      by_cases hk : cellKey r = p
      · subst hk
        rw [if_pos rfl] at hv
        rw [Finset.mem_union]
        right
        simp only [hv]
        simp
      · rw [if_neg hk] at hv
        rw [Finset.mem_union]
        left
        rw [nonNaNCells, Finset.mem_filter]
        refine ⟨?_, hv⟩
        rw [writtenCells, List.map_append, List.toFinset_append, Finset.mem_union] at hw
        rcases hw with hw | hw
        · exact hw
        · exfalso
          simp at hw
          exact hk hw.symm
    calc (nonNaNCells (rows ++ [r])).card
        ≤ ((nonNaNCells rows) ∪ (if r.val.isSome then {cellKey r} else ∅)).card :=
          Finset.card_le_card hsub
      _ ≤ (nonNaNCells rows).card + (if r.val.isSome then ({cellKey r} : Finset (ℚ × ℚ)) else ∅).card :=
          Finset.card_union_le _ _
      _ ≤ (rows.filter (fun r => r.val.isSome)).length + (if r.val.isSome then 1 else 0) := by
          refine Nat.add_le_add ih ?_
          by_cases hv : r.val.isSome <;> simp [hv]
      _ = ((rows ++ [r]).filter (fun r => r.val.isSome)).length := by
          rw [List.filter_append, List.length_append]
          congr 1
          by_cases hv : r.val.isSome <;> simp [hv]

/-- C7: the dense array starts all-NaN, a cell no input row resolves to stays
NaN (missing, never zero), and the number of non-NaN cells is at most the
number of rows carrying a valid value. -/
theorem rowsToGrid_values_nan_spec (rows : List MRow) :
    (∀ p : ℚ × ℚ, cellValue [] p = none) ∧
    (∀ p : ℚ × ℚ, (∀ r ∈ rows, cellKey r ≠ p) → cellValue rows p = none) ∧
    (nonNaNCells rows).card ≤ (rows.filter (fun r => r.val.isSome)).length :=
  ⟨fun _ => rfl,
   fun p h => foldl_cell_untouched p rows none h,
   nonNaNCells_card_le rows⟩

/-- Witness for `rowsToGrid_values_nan_spec`: a cell absent from a concrete
one-row input reads NaN, and the count bound holds there. -/
theorem rowsToGrid_values_nan_spec_witness :
    cellValue [⟨10, 20, some 1⟩] (5, 5) = none ∧
    (nonNaNCells [⟨10, 20, some 1⟩]).card
      ≤ (([⟨10, 20, some 1⟩] : List MRow).filter (fun r => r.val.isSome)).length :=
  ⟨(rowsToGrid_values_nan_spec [⟨10, 20, some 1⟩]).2.1 (5, 5) (by decide),
   (rowsToGrid_values_nan_spec [⟨10, 20, some 1⟩]).2.2⟩

/-- The grid-geometry part of the heatmap script's mutable state:
`nLat`, `nLon`, `latsDesc`, `lonsAsc`. -/
structure GeomState where
  nLat : ℕ
  nLon : ℕ
  latsDesc : List ℚ
  lonsAsc : List ℚ
deriving DecidableEq, Repr

/-- The initial state: `nLat: 0, nLon: 0, latsDesc: null, lonsAsc: null`. -/
def initGeom : GeomState := ⟨0, 0, [], []⟩

/-- The geometry update performed by one `loadSlice`: only when
`state.nLat === 0` are the freshly built grid's axes copied into the state;
otherwise the state is left untouched. -/
def applySlice (s : GeomState) (rows : List MRow) : GeomState :=
  if s.nLat = 0 then
    ⟨(latsDescAxis rows).length, (lonsAscAxis rows).length,
      latsDescAxis rows, lonsAscAxis rows⟩
  else s

/-- A slice load never changes an already-initialized state. -/
theorem applySlice_of_ne (s : GeomState) (rows : List MRow) (h : s.nLat ≠ 0) :
    applySlice s rows = s := if_neg h

/-- Any sequence of slice loads leaves an initialized state unchanged. -/
theorem foldl_applySlice_fixed (s : GeomState) (h : s.nLat ≠ 0) :
    ∀ gs : List (List MRow), gs.foldl applySlice s = s := by
  intro gs
  induction gs with
  | nil => rfl
  | cons g gs ih =>
    rw [List.foldl_cons, applySlice_of_ne s g h]
    exact ih

/-- C10: once the first loaded month's non-empty slice has initialized the
grid geometry, no later sequence of slice loads modifies it — the axes and
dimensions remain those of the first month, whatever coordinate sets later
files contain. -/
theorem grid_geometry_immutable (first : List MRow) (laters : List (List MRow))
    (h : (latsDescAxis first).length ≠ 0) :
    laters.foldl applySlice (applySlice initGeom first) = applySlice initGeom first ∧
    (laters.foldl applySlice (applySlice initGeom first)).latsDesc = latsDescAxis first ∧
    (laters.foldl applySlice (applySlice initGeom first)).lonsAsc = lonsAscAxis first ∧
    (laters.foldl applySlice (applySlice initGeom first)).nLat = (latsDescAxis first).length ∧
    (laters.foldl applySlice (applySlice initGeom first)).nLon = (lonsAscAxis first).length := by
  have h1 : applySlice initGeom first
      = ⟨(latsDescAxis first).length, (lonsAscAxis first).length,
          latsDescAxis first, lonsAscAxis first⟩ := by
    rw [applySlice]
    rfl
  have h2 := foldl_applySlice_fixed (applySlice initGeom first) (by rw [h1]; exact h) laters
  refine ⟨h2, ?_, ?_, ?_, ?_⟩ <;> rw [h2, h1]

/-- Witness for `grid_geometry_immutable`: a later slice with a different
coordinate set does not change the geometry set by the first slice. -/
theorem grid_geometry_immutable_witness :
    [[(⟨99, 98, some 2⟩ : MRow)]].foldl applySlice
        (applySlice initGeom [⟨10, 20, some 1⟩])
      = applySlice initGeom [⟨10, 20, some 1⟩] :=
  (grid_geometry_immutable [⟨10, 20, some 1⟩] [[⟨99, 98, some 2⟩]]
    (by simp [latsDescAxis, distinctList, List.insertionSort])).1
